import Mathlib

/-!
Verification of `hypothesis-phonenumbers` against its specification.

This file shallowly embeds the two source modules
`hypothesis_phonenumbers/data.py` and `hypothesis_phonenumbers/strategies.py`.
The upstream `phonenumbers` metadata package and the Hypothesis sampling
engine are external collaborators; they are modelled as explicit parameters
(`Provider`, `Engine`) whose contracts are stated as hypotheses where a
theorem needs them.  Python dictionaries keyed by decidable-equality values
are modelled as association lists looked up by first match; Python exceptions
are modelled with an `Except PyError` result type.
-/

/-- `PhoneNumberRegion` from `data.py`: a named 2-tuple
`(country_code : int, region_code : str)`. -/
structure PhoneNumberRegion where
  country_code : Int
  region_code : String
  deriving DecidableEq, Repr

/-- `RegionalNamedFormat` from `data.py`: one row per
(region, supported format) pair. -/
structure RegionalNamedFormat where
  region : PhoneNumberRegion
  format_name : String
  format_regex : String
  deriving DecidableEq, Repr

/-- `NAMED_NUMBER_FORMATS` from `data.py`: the fixed 17-name vocabulary. -/
def NAMED_NUMBER_FORMATS : List String :=
  ["general_desc", "fixed_line", "mobile", "toll_free", "premium_rate",
   "shared_cost", "personal_number", "voip", "pager", "uan", "emergency",
   "voicemail", "short_code", "standard_rate", "carrier_specific",
   "sms_services", "no_international_dialling"]

/-- A `phonenumbers.PhoneMetadata` record as used by `strategies.py`.
`nationalPrefix` models the `national_prefix` attribute (`none` when the
attribute is `None`); `formats` maps a format name to the
`national_number_pattern` of the corresponding non-`None` format attribute,
and omits format names whose attribute is `None`. -/
structure PhoneMetadata where
  id : String
  country_code : Int
  nationalPrefix : Option String
  formats : List (String × String)
  deriving DecidableEq

/-- The external `phonenumbers` metadata provider: `COUNTRY_CODE_TO_REGION_CODE`,
`SUPPORTED_REGIONS`, and `PhoneMetadata.metadata_for_region_or_calling_code`. -/
structure Provider where
  country_code_to_region_code : List (Int × List String)
  supported_regions : List String
  metadata_for : Int → String → PhoneMetadata

/-- First-match lookup in an association list (a Python `dict` access). -/
def alookup {α β : Type} [DecidableEq α] (k : α) : List (α × β) → Option β
  | [] => none
  | kv :: t => if kv.1 = k then some kv.2 else alookup k t

/-- `PHONE_NUMBER_REGIONS` from `strategies.py`: for every key of
`COUNTRY_CODE_TO_REGION_CODE` and every region code listed under it, one
`PhoneNumberRegion`, in iteration order. -/
def PHONE_NUMBER_REGIONS (p : Provider) : List PhoneNumberRegion :=
  p.country_code_to_region_code.flatMap fun kv =>
    kv.2.map fun i => PhoneNumberRegion.mk kv.1 i

/-- The `regexes` sub-dictionary built for one region by the catalog loop in
`strategies.py`: for each name of `NAMED_NUMBER_FORMATS` in order, if the
metadata attribute of that name is non-`None`, the pair of the name and the
national number pattern of that attribute. -/
def regionRegexes (p : Provider) (r : PhoneNumberRegion) : List (String × String) :=
  NAMED_NUMBER_FORMATS.filterMap fun nf =>
    (alookup nf (p.metadata_for r.country_code r.region_code).formats).map
      fun g => (nf, g)

/-- One value of `METADATA_DICT` in `strategies.py` (the `__data` dict):
`id`, `country_code`, the optional `national_prefix` key (present exactly when
the metadata attribute is non-`None`, modelled by `nationalPrefix` being
`some`), and the `regexes` dict. -/
structure CatalogRecord where
  id : String
  country_code : Int
  nationalPrefix : Option String
  regexes : List (String × String)
  deriving DecidableEq

/-- The `__data` record the catalog loop of `strategies.py` builds for one
region. -/
def buildRecord (p : Provider) (r : PhoneNumberRegion) : CatalogRecord :=
  let m := p.metadata_for r.country_code r.region_code
  { id := m.id
    country_code := m.country_code
    nationalPrefix := m.nationalPrefix
    regexes := regionRegexes p r }

/-- `METADATA_DICT` from `strategies.py`: one record per region of
`PHONE_NUMBER_REGIONS`, keyed by the region. -/
def METADATA_DICT (p : Provider) : List (PhoneNumberRegion × CatalogRecord) :=
  (PHONE_NUMBER_REGIONS p).map fun r => (r, buildRecord p r)

/-- `NUMBER_FORMATS` from `strategies.py`: the flattened
(region, format name, format regex) rows appended by the catalog loop, in
loop order. -/
def NUMBER_FORMATS (p : Provider) : List RegionalNamedFormat :=
  (PHONE_NUMBER_REGIONS p).flatMap fun r =>
    (regionRegexes p r).map fun fg => RegionalNamedFormat.mk r fg.1 fg.2

/-- Python exception values raised by the embedded code. -/
inductive PyError where
  | invalidArgument : String → PyError
  | valueError : String → PyError
  | attributeError : String → PyError
  | keyError : String → PyError
  deriving DecidableEq, Repr

/-- Python `str()` of a `PhoneNumberRegion` named tuple, as interpolated by
the f-string in `PhoneNumberStrategy.__init__`. -/
def PhoneNumberRegion.pyRepr (r : PhoneNumberRegion) : String :=
  "PhoneNumberRegion(country_code=" ++ toString r.country_code ++
    ", region_code=\x27" ++ r.region_code ++ "\x27)"

/-- Python attribute access `country_code.upper()` in `region_finder`, where
`country_code : int`: `int` has no attribute `upper`, so evaluating it raises
`AttributeError` for every integer. -/
def intUpper (_ : Int) : Except PyError String :=
  .error (.attributeError "\x27int\x27 object has no attribute \x27upper\x27")

/-- Python `==` between an `int` dict key and a `str`, as evaluated by the
membership test `region_code in COUNTRY_CODE_TO_REGION_CODE` in
`region_finder` (the dict keys are `int` country codes): always `False`. -/
def intEqStr (_ : Int) (_ : String) : Bool := false

/-- The country-code validation loop of `region_finder`:
`if country_code.upper() not in SUPPORTED_REGIONS: raise InvalidArgument`. -/
def checkCountryCodes (p : Provider) : List Int → Except PyError Unit
  | [] => .ok ()
  | c :: rest =>
    match intUpper c with
    | .error e => .error e
    | .ok u =>
      if u ∈ p.supported_regions then checkCountryCodes p rest
      else .error (.invalidArgument ("Invalid country code: " ++ toString c))

/-- The region-code validation loop of `region_finder`:
`if region_code in COUNTRY_CODE_TO_REGION_CODE: raise InvalidArgument`,
a membership test of a `str` among the dict's `int` keys. -/
def checkRegionCodes (p : Provider) : List String → Except PyError Unit
  | [] => .ok ()
  | rc :: rest =>
    if p.country_code_to_region_code.any fun kv => intEqStr kv.1 rc then
      .error (.invalidArgument ("Invalid region code: " ++ rc))
    else checkRegionCodes p rest

/-- `region_finder` from `strategies.py`.  The inner `Option` models Python's
implicit `return None` when neither argument is supplied. -/
def region_finder (p : Provider) (ccs : Option (List Int))
    (rcs : Option (List String)) :
    Except PyError (Option (List PhoneNumberRegion)) :=
  if ccs.isSome && rcs.isSome then
    .error (.invalidArgument "Cannot specify both country code and region code")
  else
    match (match ccs with | some l => checkCountryCodes p l | none => .ok ()) with
    | .error e => .error e
    | .ok _ =>
      match (match rcs with | some l => checkRegionCodes p l | none => .ok ()) with
      | .error e => .error e
      | .ok _ =>
        match ccs with
        | some l =>
          .ok (some ((PHONE_NUMBER_REGIONS p).filter fun r =>
            decide (r.country_code ∈ l)))
        | none =>
          match rcs with
          | some l =>
            .ok (some ((PHONE_NUMBER_REGIONS p).filter fun r =>
              decide (r.region_code ∈ l)))
          | none => .ok none

/-- A small concrete instance of the metadata provider, used to evaluate the
embedded code on closed inputs. -/
def mdUS : PhoneMetadata :=
  { id := "US"
    country_code := 1
    nationalPrefix := some "1"
    formats := [("fixed_line", "200"), ("mobile", "1234"), ("toll_free", "800")] }

/-- Metadata of the second example region; it has no national trunk code. -/
def mdAU : PhoneMetadata :=
  { id := "AU"
    country_code := 61
    nationalPrefix := none
    formats := [("mobile", "4")] }

/-- Concrete example provider with two regions, `(1, US)` and `(61, AU)`. -/
def pEx : Provider :=
  { country_code_to_region_code := [(1, ["US"]), (61, ["AU"])]
    supported_regions := ["US", "AU"]
    metadata_for := fun c r => if c = 1 ∧ r = "US" then mdUS else mdAU }

/-- Claim C7: for every call to `region_finder` in which both `country_codes`
and `region_codes` are supplied, the call fails with an `InvalidArgument`
error. -/
theorem c7_region_finder_both_selectors (p : Provider) (a : List Int)
    (b : List String) :
    region_finder p (some a) (some b) =
      .error (.invalidArgument "Cannot specify both country code and region code") :=
  rfl

/-- Claim C10: `region_finder` called with neither `country_codes` nor
`region_codes` falls through every branch and returns Python `None` — not the
full region universe and not an error. -/
theorem c10_region_finder_neither_selector (p : Provider) :
    region_finder p none none = .ok none :=
  rfl

/-- Claim C6 (code behavior at the failing inputs): `region_finder` performs
no effective validation of region codes — the unrecognized region code `"ZZ"`
is accepted silently and yields an empty result instead of an
`InvalidArgument` naming it — and any integer country code, recognized or
not, raises `AttributeError` from `int.upper()` instead of the claimed
`InvalidArgument`. -/
theorem c6_region_finder_validation_behavior :
    region_finder pEx none (some ["ZZ"]) = .ok (some []) ∧
    region_finder pEx (some [999]) none =
      .error (.attributeError "\x27int\x27 object has no attribute \x27upper\x27") := by
  constructor <;> rfl

/-- Claim C8 (code behavior at the failing input): with the recognized calling
code `1`, `region_finder` raises `AttributeError` from `int.upper()` instead
of returning the regions with country code `1`; region-code mode does return
exactly the catalog regions with the given region code, in catalog order. -/
theorem c8_region_finder_mode_behavior :
    region_finder pEx (some [1]) none =
      .error (.attributeError "\x27int\x27 object has no attribute \x27upper\x27") ∧
    region_finder pEx none (some ["US"]) =
      .ok (some [PhoneNumberRegion.mk 1 "US"]) := by
  constructor <;> rfl

/-- The region-validation loop of `PhoneNumberStrategy.__init__`:
`if region not in PHONE_NUMBER_REGIONS: raise InvalidArgument`. -/
def checkRegions (p : Provider) : List PhoneNumberRegion → Except PyError Unit
  | [] => .ok ()
  | r :: rest =>
    if r ∈ PHONE_NUMBER_REGIONS p then checkRegions p rest
    else .error (.invalidArgument ("Invalid region: " ++ PhoneNumberRegion.pyRepr r))

/-- The format-name validation loop of `PhoneNumberStrategy.__init__`:
`if __name not in NAMED_NUMBER_FORMATS: raise InvalidArgument`. -/
def checkFormats : List String → Except PyError Unit
  | [] => .ok ()
  | n :: rest =>
    if n ∈ NAMED_NUMBER_FORMATS then checkFormats rest
    else .error (.invalidArgument
      ("Invalid number format: " ++ n ++ " in named_number_formats"))

/-- The `regions` branch of `PhoneNumberStrategy.__init__`: default to
`PHONE_NUMBER_REGIONS`, else normalize every loosely-typed 2-tuple with
`PhoneNumberRegion(*region)` and validate each against the catalog. -/
def resolveRegions (p : Provider) :
    Option (List (Int × String)) → Except PyError (List PhoneNumberRegion)
  | none => .ok (PHONE_NUMBER_REGIONS p)
  | some l =>
    let rs := l.map fun t => PhoneNumberRegion.mk t.1 t.2
    match checkRegions p rs with
    | .error e => .error e
    | .ok _ => .ok rs

/-- The `named_number_formats` branch of `PhoneNumberStrategy.__init__`:
default to the full vocabulary, else validate each supplied name. -/
def resolveFormats :
    Option (List String) → Except PyError (List String)
  | none => .ok NAMED_NUMBER_FORMATS
  | some l =>
    match checkFormats l with
    | .error e => .error e
    | .ok _ => .ok l

/-- The instance state a successful `PhoneNumberStrategy.__init__` leaves
behind: `self.regions`, `self.named_number_formats`, `self.available_formats`. -/
structure PhoneNumberStrategy where
  regions : List PhoneNumberRegion
  named_number_formats : List String
  available_formats : List RegionalNamedFormat
  deriving DecidableEq

/-- `PhoneNumberStrategy.__init__` from `strategies.py`: resolve and validate
the region list, then the format-name list (in that order), then derive
`available_formats` as the filter of `NUMBER_FORMATS` by membership of the
row's region in `self.regions` and of its format name in
`self.named_number_formats`. -/
def PhoneNumberStrategy.init (p : Provider)
    (regionsArg : Option (List (Int × String)))
    (namedFormatsArg : Option (List String)) :
    Except PyError PhoneNumberStrategy :=
  match resolveRegions p regionsArg with
  | .error e => .error e
  | .ok rs =>
    match resolveFormats namedFormatsArg with
    | .error e => .error e
    | .ok fs =>
      .ok { regions := rs
            named_number_formats := fs
            available_formats := (NUMBER_FORMATS p).filter fun f =>
              decide (f.region ∈ rs) && decide (f.format_name ∈ fs) }

/-- A suspended `region_filter` generator: `region_filter` contains `yield`,
so in Python a call to it only builds a generator object holding the
arguments; none of the body (including the format-name validation) runs until
the generator is first consumed. -/
structure RegionFilterGen where
  regions_to_filter : Option (List PhoneNumberRegion)
  hasNationalTrunkPrefix : Option Bool
  required_number_formats : Option (List String)
  deriving DecidableEq

/-- Calling the generator function `region_filter`: builds the generator
object and runs no body code, hence it cannot raise.  The `Except` result
type records exactly that: the call always succeeds. -/
def region_filter_call (rtf : Option (List PhoneNumberRegion))
    (htp : Option Bool) (rnf : Option (List String)) :
    Except PyError RegionFilterGen :=
  .ok (RegionFilterGen.mk rtf htp rnf)

/-- The check appended by `if has_national_trunk_prefix:` in the
`region_filter` body (truthy only for `True`): the presence test of the
`national_prefix` key on the region's record. -/
def trunkChecks (htp : Option Bool) (rec : CatalogRecord) : List Bool :=
  if htp.getD false then [(CatalogRecord.nationalPrefix rec).isSome] else []

/-- The checks appended by `if required_number_formats:` in the
`region_filter` body (truthy for a non-`None`, non-empty value): one
key-membership test on the region's `regexes` dict per required name. -/
def fmtChecks (rnf : Option (List String)) (rec : CatalogRecord) : List Bool :=
  match rnf with
  | none => []
  | some fl =>
    if fl.isEmpty then [] else fl.map fun nf => (alookup nf rec.regexes).isSome

/-- The full `checks` list built by the `region_filter` body for one region. -/
def regionFilterChecks (htp : Option Bool) (rnf : Option (List String))
    (rec : CatalogRecord) : List Bool :=
  trunkChecks htp rec ++ fmtChecks rnf rec

/-- The `for region in regions_to_filter` loop of the `region_filter` body:
look the region up in `METADATA_DICT` (a missing region is a Python
`KeyError`), and yield it when `all(checks)` holds. -/
def regionFilterLoop (p : Provider) (htp : Option Bool)
    (rnf : Option (List String)) :
    List PhoneNumberRegion → Except PyError (List PhoneNumberRegion)
  | [] => .ok []
  | r :: rest =>
    match alookup r (METADATA_DICT p) with
    | none => .error (.keyError (PhoneNumberRegion.pyRepr r))
    | some rec =>
      match regionFilterLoop p htp rnf rest with
      | .error e => .error e
      | .ok out =>
        if (regionFilterChecks htp rnf rec).all id then .ok (r :: out)
        else .ok out

/-- Running a suspended `region_filter` generator to exhaustion (the body of
`region_filter` in `strategies.py`): first the subset check of
`required_number_formats` against `NAMED_NUMBER_FORMATS`, raising `ValueError`
on failure, then the filtering loop over the candidate regions, defaulting to
`PHONE_NUMBER_REGIONS`. -/
def region_filter_run (p : Provider) :
    RegionFilterGen → Except PyError (List PhoneNumberRegion)
  | RegionFilterGen.mk rtf htp none =>
    regionFilterLoop p htp none (rtf.getD (PHONE_NUMBER_REGIONS p))
  | RegionFilterGen.mk rtf htp (some fl) =>
    if fl.all fun n => decide (n ∈ NAMED_NUMBER_FORMATS) then
      regionFilterLoop p htp (some fl) (rtf.getD (PHONE_NUMBER_REGIONS p))
    else .error (.valueError "Invalid required named number format")

/-- The Hypothesis sampling engine as seen by `do_draw`: `data.draw` on
`st.sampled_from` for the region and format choices, and `data.draw` on
`st.from_regex(regex, alphabet=digits 0-9, fullmatch=True)` for the number
string.  `none` models any engine-side failure (for example sampling from an
empty collection). -/
structure Engine where
  choose_region : List PhoneNumberRegion → Option PhoneNumberRegion
  choose_format : List String → Option String
  string_matching : String → Option String

/-- `PhoneNumberStrategy.do_draw` from `strategies.py`: draw a region from
`self.regions`, intersect that region's `regexes` keys with
`self.named_number_formats`, draw a format name from the intersection, and
draw a string from the regex registered under that name for the region.
The Python intersection is an unordered set; only membership in it is
observable through the engine, so it is modelled as a filtered key list.
Every failure mode (engine failure, missing key) is collapsed to `none`;
the claims quantify only over successful draws. -/
def do_draw (p : Provider) (s : PhoneNumberStrategy) (e : Engine) :
    Option (PhoneNumberRegion × String × String) :=
  match Engine.choose_region e s.regions with
  | none => none
  | some r =>
    match alookup r (METADATA_DICT p) with
    | none => none
    | some rec =>
      let avail := (rec.regexes.map Prod.fst).filter fun k =>
        decide (k ∈ s.named_number_formats)
      match Engine.choose_format e avail with
      | none => none
      | some f =>
        match alookup f rec.regexes with
        | none => none
        | some g =>
          match Engine.string_matching e g with
          | none => none
          | some str => some (r, f, str)

theorem alookup_mem {α β : Type} [DecidableEq α] {k : α} {v : β}
    {l : List (α × β)} (h : alookup k l = some v) : (k, v) ∈ l := by
  induction l with
  | nil => simp [alookup] at h
  | cons kv t ih =>
    rw [alookup] at h
    by_cases hk : kv.1 = k
    · rw [if_pos hk] at h
      injection h with h
      have hkv : (k, v) = kv := by
        cases kv
        cases hk
        cases h
        rfl
      rw [hkv]
      exact List.mem_cons_self _ _
    · rw [if_neg hk] at h
      exact List.mem_cons_of_mem _ (ih h)

theorem alookup_map_self {α β : Type} [DecidableEq α] (f : α → β) {r : α}
    {l : List α} (h : r ∈ l) :
    alookup r (l.map fun x => (x, f x)) = some (f r) := by
  induction l with
  | nil => cases h
  | cons a t ih =>
    rw [List.map_cons, alookup]
    by_cases ha : a = r
    · subst ha
      simp
    · rw [if_neg (by simpa using ha)]
      rcases List.mem_cons.mp h with h1 | h2
      · exact absurd h1.symm ha
      · exact ih h2

theorem METADATA_DICT_lookup (p : Provider) {r : PhoneNumberRegion}
    (h : r ∈ PHONE_NUMBER_REGIONS p) :
    alookup r (METADATA_DICT p) = some (buildRecord p r) :=
  alookup_map_self (buildRecord p) h

theorem METADATA_DICT_mem (p : Provider) {r : PhoneNumberRegion}
    {rec : CatalogRecord} (h : (r, rec) ∈ METADATA_DICT p) :
    r ∈ PHONE_NUMBER_REGIONS p ∧ rec = buildRecord p r := by
  rcases List.mem_map.mp h with ⟨x, hx, heq⟩
  have h1 : x = r := congrArg Prod.fst heq
  have h2 : buildRecord p x = rec := congrArg Prod.snd heq
  subst h1
  exact ⟨hx, h2.symm⟩

theorem mem_NUMBER_FORMATS (p : Provider) {r : PhoneNumberRegion}
    {nf g : String} (hr : r ∈ PHONE_NUMBER_REGIONS p)
    (hfg : (nf, g) ∈ regionRegexes p r) :
    RegionalNamedFormat.mk r nf g ∈ NUMBER_FORMATS p := by
  unfold NUMBER_FORMATS
  rw [List.mem_flatMap]
  exact ⟨r, hr, List.mem_map.mpr ⟨(nf, g), hfg, rfl⟩⟩

theorem checkRegions_ok (p : Provider) {l : List PhoneNumberRegion}
    (h : ∀ r ∈ l, r ∈ PHONE_NUMBER_REGIONS p) :
    checkRegions p l = .ok () := by
  induction l with
  | nil => rfl
  | cons a t ih =>
    rw [checkRegions, if_pos (h a (List.mem_cons_self a t))]
    exact ih fun r hr => h r (List.mem_cons_of_mem a hr)

theorem checkRegions_error (p : Provider) {l : List PhoneNumberRegion}
    (h : ∃ r ∈ l, r ∉ PHONE_NUMBER_REGIONS p) :
    ∃ r, r ∈ l ∧ r ∉ PHONE_NUMBER_REGIONS p ∧
      checkRegions p l =
        .error (.invalidArgument ("Invalid region: " ++ PhoneNumberRegion.pyRepr r)) := by
  induction l with
  | nil => rcases h with ⟨r, hr, _⟩; cases hr
  | cons a t ih =>
    by_cases ha : a ∈ PHONE_NUMBER_REGIONS p
    · have ht : ∃ r ∈ t, r ∉ PHONE_NUMBER_REGIONS p := by
        rcases h with ⟨r, hr, hnot⟩
        rcases List.mem_cons.mp hr with h1 | h2
        · exact absurd (h1 ▸ ha) hnot
        · exact ⟨r, h2, hnot⟩
      rcases ih ht with ⟨r, hrt, hnot, heq⟩
      refine ⟨r, List.mem_cons_of_mem a hrt, hnot, ?_⟩
      rw [checkRegions, if_pos ha]
      exact heq
    · refine ⟨a, List.mem_cons_self a t, ha, ?_⟩
      rw [checkRegions, if_neg ha]

theorem checkFormats_ok {l : List String}
    (h : ∀ n ∈ l, n ∈ NAMED_NUMBER_FORMATS) :
    checkFormats l = .ok () := by
  induction l with
  | nil => rfl
  | cons a t ih =>
    rw [checkFormats, if_pos (h a (List.mem_cons_self a t))]
    exact ih fun n hn => h n (List.mem_cons_of_mem a hn)

theorem checkFormats_error {l : List String}
    (h : ∃ n ∈ l, n ∉ NAMED_NUMBER_FORMATS) :
    ∃ n, n ∈ l ∧ n ∉ NAMED_NUMBER_FORMATS ∧
      checkFormats l =
        .error (.invalidArgument
          ("Invalid number format: " ++ n ++ " in named_number_formats")) := by
  induction l with
  | nil => rcases h with ⟨n, hn, _⟩; cases hn
  | cons a t ih =>
    by_cases ha : a ∈ NAMED_NUMBER_FORMATS
    · have ht : ∃ n ∈ t, n ∉ NAMED_NUMBER_FORMATS := by
        rcases h with ⟨n, hn, hnot⟩
        rcases List.mem_cons.mp hn with h1 | h2
        · exact absurd (h1 ▸ ha) hnot
        · exact ⟨n, h2, hnot⟩
      rcases ih ht with ⟨n, hnt, hnot, heq⟩
      refine ⟨n, List.mem_cons_of_mem a hnt, hnot, ?_⟩
      rw [checkFormats, if_pos ha]
      exact heq
    · refine ⟨a, List.mem_cons_self a t, ha, ?_⟩
      rw [checkFormats, if_neg ha]

/-- Claim C2: with `regions=None` the resolved region set is the full known
universe; with an explicit list it is exactly the tuple-normalized list; and
an element outside the catalog fails construction with `InvalidArgument`
(naming the first such element). -/
theorem c2_region_resolution (p : Provider) (fmtArg : Option (List String)) :
    (∀ s, PhoneNumberStrategy.init p none fmtArg = .ok s →
        s.regions = PHONE_NUMBER_REGIONS p) ∧
    (∀ l s, PhoneNumberStrategy.init p (some l) fmtArg = .ok s →
        s.regions = l.map fun t => PhoneNumberRegion.mk t.1 t.2) ∧
    (∀ l, (∃ t ∈ l, PhoneNumberRegion.mk t.1 t.2 ∉ PHONE_NUMBER_REGIONS p) →
        ∃ r, r ∈ (l.map fun t => PhoneNumberRegion.mk t.1 t.2) ∧
          r ∉ PHONE_NUMBER_REGIONS p ∧
          PhoneNumberStrategy.init p (some l) fmtArg =
            .error (.invalidArgument
              ("Invalid region: " ++ PhoneNumberRegion.pyRepr r))) := by
  refine ⟨?_, ?_, ?_⟩
  · intro s h
    rw [PhoneNumberStrategy.init] at h
    rw [resolveRegions] at h
    cases hf : resolveFormats fmtArg with
    | error e => rw [hf] at h; cases h
    | ok fs =>
      rw [hf] at h
      injection h with h
      rw [← h]
  · intro l s h
    rw [PhoneNumberStrategy.init] at h
    rw [resolveRegions] at h
    cases hc : checkRegions p (l.map fun t => PhoneNumberRegion.mk t.1 t.2) with
    | error e => rw [hc] at h; cases h
    | ok u =>
      rw [hc] at h
      cases hf : resolveFormats fmtArg with
      | error e => rw [hf] at h; cases h
      | ok fs =>
        rw [hf] at h
        injection h with h
        rw [← h]
  · intro l hbad
    have hbad' : ∃ r ∈ (l.map fun t => PhoneNumberRegion.mk t.1 t.2),
        r ∉ PHONE_NUMBER_REGIONS p := by
      rcases hbad with ⟨t, ht, hnot⟩
      exact ⟨PhoneNumberRegion.mk t.1 t.2, List.mem_map.mpr ⟨t, ht, rfl⟩, hnot⟩
    rcases checkRegions_error p hbad' with ⟨r, hr, hnot, heq⟩
    refine ⟨r, hr, hnot, ?_⟩
    rw [PhoneNumberStrategy.init, resolveRegions, heq]

/-- Claim C2 witness: instantiated on the example provider with the unknown
region tuple `(1, "XX")`. -/
theorem c2_region_resolution_witness :
    ∃ r, r ∈ ([((1 : Int), "XX")].map fun t => PhoneNumberRegion.mk t.1 t.2) ∧
      r ∉ PHONE_NUMBER_REGIONS pEx ∧
      PhoneNumberStrategy.init pEx (some [((1 : Int), "XX")]) none =
        .error (.invalidArgument
          ("Invalid region: " ++ PhoneNumberRegion.pyRepr (PhoneNumberRegion.mk 1 "XX"))) := by
  rcases (c2_region_resolution pEx none).2.2 [((1 : Int), "XX")]
      ⟨((1 : Int), "XX"), by decide, by decide⟩ with ⟨r, hr, hnot, heq⟩
  have hr' : r = PhoneNumberRegion.mk 1 "XX" := by
    rcases List.mem_map.mp hr with ⟨t, ht, hteq⟩
    rcases List.mem_singleton.mp ht with rfl
    exact hteq.symm
  exact ⟨r, hr, hnot, by rw [← hr']; exact heq⟩

/-- Claim C3: for every successful construction, `available_formats` contains
exactly the catalog rows whose region is in the resolved region set and whose
format name is in the resolved format set. -/
theorem c3_available_formats (p : Provider) (a : Option (List (Int × String)))
    (b : Option (List String)) (s : PhoneNumberStrategy)
    (h : PhoneNumberStrategy.init p a b = .ok s) (e : RegionalNamedFormat) :
    e ∈ s.available_formats ↔
      e ∈ NUMBER_FORMATS p ∧ e.region ∈ s.regions ∧
        e.format_name ∈ s.named_number_formats := by
  rw [PhoneNumberStrategy.init] at h
  cases hr : resolveRegions p a with
  | error er => rw [hr] at h; cases h
  | ok rs =>
    rw [hr] at h
    cases hf : resolveFormats b with
    | error er => rw [hf] at h; cases h
    | ok fs =>
      rw [hf] at h
      injection h with h
      rw [← h]
      simp [List.mem_filter]

/-- The strategy state produced by `PhoneNumberStrategy.init pEx none none`
(no caller constraints on the example provider). -/
def stratEx : PhoneNumberStrategy :=
  { regions := PHONE_NUMBER_REGIONS pEx
    named_number_formats := NAMED_NUMBER_FORMATS
    available_formats := (NUMBER_FORMATS pEx).filter fun f =>
      decide (f.region ∈ PHONE_NUMBER_REGIONS pEx) &&
        decide (f.format_name ∈ NAMED_NUMBER_FORMATS) }

/-- Claim C3 witness: instantiated on the example provider, the unconstrained
strategy, and the catalog row for the US mobile format. -/
theorem c3_available_formats_witness :
    RegionalNamedFormat.mk (PhoneNumberRegion.mk 1 "US") "mobile" "1234" ∈
        stratEx.available_formats ↔
      (RegionalNamedFormat.mk (PhoneNumberRegion.mk 1 "US") "mobile" "1234" ∈
          NUMBER_FORMATS pEx ∧
        PhoneNumberRegion.mk 1 "US" ∈ stratEx.regions ∧
        "mobile" ∈ stratEx.named_number_formats) :=
  c3_available_formats pEx none none stratEx rfl
    (RegionalNamedFormat.mk (PhoneNumberRegion.mk 1 "US") "mobile" "1234")

/-- Claim C5: when the supplied regions (if any) all validate, a
`named_number_formats` list containing a name outside the fixed vocabulary
fails construction — before any draw can occur — with the `InvalidArgument`
error naming an invalid format (the spec's `InvalidFormatName` condition). -/
theorem c5_invalid_format_name (p : Provider)
    (regArg : Option (List (Int × String)))
    (hreg : ∀ l, regArg = some l →
      ∀ t ∈ l, PhoneNumberRegion.mk t.1 t.2 ∈ PHONE_NUMBER_REGIONS p)
    (fmts : List String) (hbad : ∃ n ∈ fmts, n ∉ NAMED_NUMBER_FORMATS) :
    ∃ n, n ∈ fmts ∧ n ∉ NAMED_NUMBER_FORMATS ∧
      PhoneNumberStrategy.init p regArg (some fmts) =
        .error (.invalidArgument
          ("Invalid number format: " ++ n ++ " in named_number_formats")) := by
  rcases checkFormats_error hbad with ⟨n, hn, hnot, heq⟩
  refine ⟨n, hn, hnot, ?_⟩
  have hres : resolveRegions p regArg = .ok (match regArg with
      | none => PHONE_NUMBER_REGIONS p
      | some l => l.map fun t => PhoneNumberRegion.mk t.1 t.2) := by
    cases regArg with
    | none => rfl
    | some l =>
      rw [resolveRegions]
      rw [checkRegions_ok p]
      intro r hr
      rcases List.mem_map.mp hr with ⟨t, ht, hteq⟩
      exact hteq ▸ hreg l rfl t ht
  rw [PhoneNumberStrategy.init, hres, resolveFormats, heq]

/-- Claim C5 witness: the spec's example scenario
`number_formats=["not_a_real_format"]` on the example provider. -/
theorem c5_invalid_format_name_witness :
    ∃ n, n ∈ ["not_a_real_format"] ∧ n ∉ NAMED_NUMBER_FORMATS ∧
      PhoneNumberStrategy.init pEx none (some ["not_a_real_format"]) =
        .error (.invalidArgument
          ("Invalid number format: " ++ n ++ " in named_number_formats")) :=
  c5_invalid_format_name pEx none (fun l h => by cases h)
    ["not_a_real_format"] ⟨"not_a_real_format", by decide, by decide⟩

theorem trunkChecks_iff (htp : Option Bool) (rec : CatalogRecord) :
    (trunkChecks htp rec).all id = true ↔
      (htp = some true → (CatalogRecord.nationalPrefix rec).isSome = true) := by
  cases htp with
  | none => simp [trunkChecks]
  | some b => cases b <;> simp [trunkChecks]

theorem fmtChecks_iff (rnf : Option (List String)) (rec : CatalogRecord) :
    (fmtChecks rnf rec).all id = true ↔
      (∀ fl, rnf = some fl → ∀ nf ∈ fl, (alookup nf rec.regexes).isSome = true) := by
  cases rnf with
  | none => simp [fmtChecks]
  | some fl =>
    cases fl with
    | nil => simp [fmtChecks]
    | cons x t =>
      rw [fmtChecks]
      rw [if_neg (by simp)]
      rw [List.all_eq_true]
      constructor
      · intro h fl' hfl' nf hnf
        cases hfl'
        have h3 := h ((alookup nf rec.regexes).isSome)
          (List.mem_map.mpr ⟨nf, hnf, rfl⟩)
        simpa using h3
      · intro h b hb
        rcases List.mem_map.mp hb with ⟨nf, hnf, hmap⟩
        rw [← hmap]
        simpa using h (x :: t) rfl nf hnf

theorem regionFilterChecks_all (htp : Option Bool) (rnf : Option (List String))
    (rec : CatalogRecord) :
    (regionFilterChecks htp rnf rec).all id = true ↔
      ((htp = some true → (CatalogRecord.nationalPrefix rec).isSome = true) ∧
       (∀ fl, rnf = some fl →
          ∀ nf ∈ fl, (alookup nf rec.regexes).isSome = true)) := by
  rw [regionFilterChecks, List.all_append, Bool.and_eq_true,
    trunkChecks_iff, fmtChecks_iff]

theorem regionFilterLoop_ok (p : Provider) (htp : Option Bool)
    (rnf : Option (List String)) (l : List PhoneNumberRegion)
    (hl : ∀ r ∈ l, r ∈ PHONE_NUMBER_REGIONS p) :
    ∃ out, regionFilterLoop p htp rnf l = .ok out ∧
      ∀ r, r ∈ out ↔ r ∈ l ∧
        (regionFilterChecks htp rnf (buildRecord p r)).all id = true := by
  induction l with
  | nil => exact ⟨[], rfl, by simp⟩
  | cons a t ih =>
    rcases ih (fun r hr => hl r (List.mem_cons_of_mem a hr)) with ⟨out, hout, hmem⟩
    have hlook : alookup a (METADATA_DICT p) = some (buildRecord p a) :=
      METADATA_DICT_lookup p (hl a (List.mem_cons_self a t))
    by_cases hchecks : (regionFilterChecks htp rnf (buildRecord p a)).all id = true
    · refine ⟨a :: out, ?_, ?_⟩
      · simp only [regionFilterLoop, hlook, hout]
        rw [if_pos hchecks]
      · intro r
        rw [List.mem_cons, hmem r, List.mem_cons]
        constructor
        · rintro (rfl | ⟨hrt, hc⟩)
          · exact ⟨Or.inl rfl, hchecks⟩
          · exact ⟨Or.inr hrt, hc⟩
        · rintro ⟨rfl | hrt, hc⟩
          · exact Or.inl rfl
          · exact Or.inr ⟨hrt, hc⟩
    · refine ⟨out, ?_, ?_⟩
      · simp only [regionFilterLoop, hlook, hout]
        rw [if_neg hchecks]
      · intro r
        rw [hmem r, List.mem_cons]
        constructor
        · rintro ⟨hrt, hc⟩
          exact ⟨Or.inr hrt, hc⟩
        · rintro ⟨rfl | hrt, hc⟩
          · exact absurd hc hchecks
          · exact ⟨hrt, hc⟩

/-- Claim C4: for candidate regions known to the catalog and a valid required
format set, calling `region_filter` builds a generator, and a region appears
in its output iff (a trunk prefix was not required, or that region's record
carries a `national_prefix`) and (no formats were required, or every required
name is a key of that region's `regexes` dict); with `regions_to_filter`
omitted the candidate universe is `PHONE_NUMBER_REGIONS`. -/
theorem c4_region_filter_membership (p : Provider)
    (rtf : Option (List PhoneNumberRegion)) (htp : Option Bool)
    (rnf : Option (List String))
    (hsub : ∀ fl, rnf = some fl → ∀ n ∈ fl, n ∈ NAMED_NUMBER_FORMATS)
    (hreg : ∀ l, rtf = some l → ∀ r ∈ l, r ∈ PHONE_NUMBER_REGIONS p) :
    region_filter_call rtf htp rnf = .ok (RegionFilterGen.mk rtf htp rnf) ∧
    ∃ out, region_filter_run p (RegionFilterGen.mk rtf htp rnf) = .ok out ∧
      ∀ r, r ∈ out ↔ r ∈ rtf.getD (PHONE_NUMBER_REGIONS p) ∧
        ((htp = some true →
          (CatalogRecord.nationalPrefix (buildRecord p r)).isSome = true) ∧
         (∀ fl, rnf = some fl →
          ∀ nf ∈ fl, (alookup nf (buildRecord p r).regexes).isSome = true)) := by
  refine ⟨rfl, ?_⟩
  have hcand : ∀ r ∈ rtf.getD (PHONE_NUMBER_REGIONS p),
      r ∈ PHONE_NUMBER_REGIONS p := by
    cases rtf with
    | none => intro r hr; simpa using hr
    | some l => intro r hr; exact hreg l rfl r (by simpa using hr)
  rcases regionFilterLoop_ok p htp rnf (rtf.getD (PHONE_NUMBER_REGIONS p)) hcand
    with ⟨out, hout, hmem⟩
  have hrun : region_filter_run p (RegionFilterGen.mk rtf htp rnf) = .ok out := by
    cases rnf with
    | none => rw [region_filter_run]; exact hout
    | some fl =>
      rw [region_filter_run]
      rw [if_pos]
      · exact hout
      · rw [List.all_eq_true]
        intro n hn
        simpa using hsub fl rfl n hn
  refine ⟨out, hrun, ?_⟩
  intro r
  rw [hmem r, regionFilterChecks_all]

/-- Claim C4 witness: filtering the example provider's regions by presence of
a national trunk code, with no explicit candidate list and no required
formats. -/
theorem c4_region_filter_membership_witness :
    region_filter_call none (some true) none =
      .ok (RegionFilterGen.mk none (some true) none) ∧
    ∃ out, region_filter_run pEx (RegionFilterGen.mk none (some true) none) = .ok out ∧
      ∀ r, r ∈ out ↔ r ∈ Option.getD none (PHONE_NUMBER_REGIONS pEx) ∧
        ((some true = some true →
          (CatalogRecord.nationalPrefix (buildRecord pEx r)).isSome = true) ∧
         (∀ fl, (none : Option (List String)) = some fl →
          ∀ nf ∈ fl, (alookup nf (buildRecord pEx r).regexes).isSome = true)) :=
  c4_region_filter_membership pEx none (some true) none
    (fun fl h => by cases h) (fun l h => by cases h)

/-- Claim C9 counterexample: at the concrete input
`required_number_formats=["not_a_real_format"]` the call to `region_filter`
does not fail — it returns a generator object — and the validation error (a
`ValueError`, not a distinct `InvalidFormatName` type) surfaces only when the
resulting sequence is consumed.  This refutes "raised immediately at the
call ... rather than deferred until the resulting sequence is consumed". -/
theorem c9_error_not_raised_at_call :
    region_filter_call none none (some ["not_a_real_format"]) =
      .ok (RegionFilterGen.mk none none (some ["not_a_real_format"])) ∧
    region_filter_run pEx (RegionFilterGen.mk none none (some ["not_a_real_format"])) =
      .error (.valueError "Invalid required named number format") := by
  constructor <;> rfl

/-- Claim C9 as amended: for a `required_number_formats` collection that is
not a subset of the fixed vocabulary, calling `region_filter` succeeds
(returning a suspended generator), and the `ValueError` with message
"Invalid required named number format" is raised when the resulting sequence
is first consumed. -/
theorem c9_amended_deferred_valueerror (p : Provider)
    (rtf : Option (List PhoneNumberRegion)) (htp : Option Bool)
    (fl : List String) (hbad : ∃ n ∈ fl, n ∉ NAMED_NUMBER_FORMATS) :
    region_filter_call rtf htp (some fl) =
      .ok (RegionFilterGen.mk rtf htp (some fl)) ∧
    region_filter_run p (RegionFilterGen.mk rtf htp (some fl)) =
      .error (.valueError "Invalid required named number format") := by
  refine ⟨rfl, ?_⟩
  rw [region_filter_run]
  rw [if_neg]
  intro hall
  rcases hbad with ⟨n, hn, hnot⟩
  exact hnot (by simpa using List.all_eq_true.mp hall n hn)

/-- Claim C9 amended-theorem witness: instantiated on the example provider
with the unknown name `"bogus"` and a trunk-code constraint. -/
theorem c9_amended_deferred_valueerror_witness :
    region_filter_call none (some true) (some ["bogus"]) =
      .ok (RegionFilterGen.mk none (some true) (some ["bogus"])) ∧
    region_filter_run pEx (RegionFilterGen.mk none (some true) (some ["bogus"])) =
      .error (.valueError "Invalid required named number format") :=
  c9_amended_deferred_valueerror pEx none (some true) ["bogus"]
    ⟨"bogus", by decide, by decide⟩

/-- Claim C1: every successful draw returns a string of digit characters 0-9
that fully matches (in the sense of the sampling-engine contract `M`) the
regex the catalog registers for some region in the strategy's resolved region
set and some format name in its resolved format set. -/
theorem c1_draw_matches_registered_regex (p : Provider)
    (s : PhoneNumberStrategy) (e : Engine) (M : String → String → Prop)
    (hcr : ∀ l r, Engine.choose_region e l = some r → r ∈ l)
    (hcf : ∀ l f, Engine.choose_format e l = some f → f ∈ l)
    (hsm : ∀ g t, Engine.string_matching e g = some t →
      M g t ∧ t.all Char.isDigit = true)
    (r : PhoneNumberRegion) (f str : String)
    (hdraw : do_draw p s e = some (r, f, str)) :
    str.all Char.isDigit = true ∧
    ∃ rr ff gg, rr ∈ s.regions ∧ ff ∈ s.named_number_formats ∧
      RegionalNamedFormat.mk rr ff gg ∈ NUMBER_FORMATS p ∧ M gg str := by
  rw [do_draw] at hdraw
  cases hr : Engine.choose_region e s.regions with
  | none => simp [hr] at hdraw
  | some r0 =>
    simp only [hr] at hdraw
    cases hrec : alookup r0 (METADATA_DICT p) with
    | none => simp [hrec] at hdraw
    | some rec =>
      simp only [hrec] at hdraw
      cases hf : Engine.choose_format e
          ((rec.regexes.map Prod.fst).filter fun k =>
            decide (k ∈ s.named_number_formats)) with
      | none => simp [hf] at hdraw
      | some f0 =>
        simp only [hf] at hdraw
        cases hg : alookup f0 rec.regexes with
        | none => simp [hg] at hdraw
        | some g0 =>
          simp only [hg] at hdraw
          cases hstr : Engine.string_matching e g0 with
          | none => simp [hstr] at hdraw
          | some str0 =>
            simp only [hstr, Option.some.injEq] at hdraw
            have hr0 : r0 = r := congrArg Prod.fst hdraw
            have hstr0 : str0 = str := by
              have := congrArg Prod.snd hdraw
              exact congrArg Prod.snd this
            subst hr0
            subst hstr0
            have hrmem : r0 ∈ s.regions := hcr s.regions r0 hr
            rcases METADATA_DICT_mem p (alookup_mem hrec) with ⟨hcat, hbuild⟩
            have hf0 := hcf _ f0 hf
            rw [List.mem_filter] at hf0
            have hfmem : f0 ∈ s.named_number_formats := by
              simpa using hf0.2
            have hfg : (f0, g0) ∈ regionRegexes p r0 := by
              have := alookup_mem hg
              rw [hbuild] at this
              simpa [buildRecord] using this
            rcases hsm g0 str0 hstr with ⟨hM, hdig⟩
            exact ⟨hdig, r0, f0, g0, hrmem, hfmem,
              mem_NUMBER_FORMATS p hcat hfg, hM⟩

/-- The sampling engine used to evaluate `do_draw` on a closed input: it
always picks the first element of the offered collection and returns the
digit string "1234" for every regex. -/
def eEx : Engine :=
  { choose_region := List.head?
    choose_format := List.head?
    string_matching := fun _ => some "1234" }

theorem head?_mem {α : Type} (l : List α) (a : α) (h : l.head? = some a) :
    a ∈ l := by
  cases l with
  | nil => cases h
  | cons x t =>
    injection h with h
    rw [← h]
    exact List.mem_cons_self x t

/-- Claim C1 witness: a concrete successful draw on the example provider with
the unconstrained strategy and the first-element engine, instantiating the
match relation with equality to the engine's output. -/
theorem c1_draw_matches_registered_regex_witness :
    ("1234" : String).all Char.isDigit = true ∧
    ∃ rr ff gg, rr ∈ stratEx.regions ∧ ff ∈ stratEx.named_number_formats ∧
      RegionalNamedFormat.mk rr ff gg ∈ NUMBER_FORMATS pEx ∧
      (fun _ t => t = "1234") gg "1234" := by
  refine c1_draw_matches_registered_regex pEx stratEx eEx (fun _ t => t = "1234")
    (fun l r h => head?_mem l r h) (fun l f h => head?_mem l f h)
    (fun g t h => ?_) (PhoneNumberRegion.mk 1 "US") "fixed_line" "1234" ?_
  · have ht : t = "1234" := by
      injection h with h
      exact h.symm
    subst ht
    refine ⟨rfl, ?_⟩
    rw [String.all_eq]
    decide
  · decide
